import Mathlib

/-!
Shallow embedding of the duty-cycled link-layer controller for leaf nodes
(`sys/net/gnrc/link_layer/dutymac/gnrc_netdev2_duty_leaf.c`).

The module-level globals of the C file become fields of a state record `St`.
The ISR-side device callback `_event_cb`, the timer callback `dutycycle_cb`,
and the MAC thread's message dispatch (`_gnrc_netdev2_duty_thread`) become
pure state-transformers.  The radio driver, the CSMA helper and the retry
helper (`send.h`) are external to the repository: their boolean answers
(`is_receiving`, `csma_send_failed`, `retry_send_failed`) enter as oracle
arguments, and handing a frame to the radio (`send_with_retries` inside
`msg_queue_send` / `send_beacon_safely`) is recorded by setting `radio_busy`
and bumping the ghost counter `inflight`; terminal TX events decrement it.
Machine integers: `pending_num` and `sleep_interval_shift` are `uint8_t`
in the source, so their arithmetic is taken modulo 256; the computed sleep
interval is `uint32_t`, taken modulo 2^32.
-/

namespace DutyLeaf

/-- Capacity of the packet queue, `NETDEV2_PKT_QUEUE_SIZE` in the source. -/
def NETDEV2_PKT_QUEUE_SIZE : Nat := 128

/-- Duty-cycle states, mirroring `dutycycle_state_t`. -/
inductive DutyState
  | INIT
  | SLEEP
  | TX_BEACON
  | TX_DATA
  | TX_DATA_BEFORE_BEACON
  | LISTEN
deriving DecidableEq, Repr

/-- Radio power states the core writes through `dev->driver->set(NETOPT_STATE, ...)`. -/
inductive RState
  | radioSleep
  | radioIdle
deriving DecidableEq, Repr

/-- Device events delivered to `_event_cb` from inside the driver's `isr()` hook.
The boolean payloads are the answers of the external helpers consulted by the
handler: `retryWillRetry` is the value of `retry_send_failed()` and
`csmaWillRetry` the value of `csma_send_failed()` (the helpers live in
`send.h`, outside this file); `pkt` is what `recv()` returns on RX_COMPLETE. -/
inductive DevEv
  | rxComplete (pkt : Option Nat)
  | rxPending
  | txComplete
  | txCompletePending
  | txNoack (retryWillRetry : Bool)
  | txMediumBusy (csmaWillRetry retryWillRetry : Bool)
deriving DecidableEq, Repr

/-- Messages in the MAC thread's FIFO mailbox, mirroring the message types
dispatched by `_gnrc_netdev2_duty_thread`.  `netdevEvent` is
`NETDEV2_MSG_TYPE_EVENT`; the device events produced by the `isr()` call are
supplied as an oracle when the message is delivered.  The `LINK_RETRANSMIT`
traffic generated by the external retry helper is abstracted into the
submission itself (see module comment). -/
inductive Msg
  | dutyEvent
  | checkQueue
  | removeQueue
  | netdevEvent
  | netapiSnd (f : Nat)
  | netapiSetDuty (b : Bool)
deriving DecidableEq, Repr

/-- The module-level state of the C file, plus the ghost fields `inflight`
(submissions minus terminal TX events) and `released` (frames passed to
`gnrc_pktbuf_release` by the queue), plus the thread mailbox. -/
structure St where
  dutycycling : Bool
  dutycycle_state : DutyState
  pending_num : Nat
  queue : List Nat
  radio_busy : Bool
  irq_pending : Bool
  sending_beacon : Bool
  beacon_pending : Bool
  additional_wakeup : Bool
  sleep_interval_shift : Nat
  timer_armed : Bool
  radio_power : RState
  mailbox : List Msg
  inflight : Nat
  released : List Nat
deriving DecidableEq, Repr

/-- Initial values of the globals at thread start. -/
def init : St :=
  { dutycycling := false
    dutycycle_state := .INIT
    pending_num := 0
    queue := []
    radio_busy := false
    irq_pending := false
    sending_beacon := false
    beacon_pending := false
    additional_wakeup := false
    sleep_interval_shift := 0
    timer_armed := false
    radio_power := .radioSleep
    mailbox := []
    inflight := 0
    released := [] }

/-- Append a message to the MAC thread's own mailbox (`msg_send` to own pid /
`msg_send_to_self`). -/
def post (m : Msg) (s : St) : St := { s with mailbox := s.mailbox ++ [m] }

/-- The submission precondition from the source:
`!radio_busy && !irq_pending && !is_receiving(dev)`. -/
def policy (s : St) (rcv : Bool) : Prop := ¬s.radio_busy ∧ ¬s.irq_pending ∧ ¬rcv

instance instDecidablePolicy (s : St) (rcv : Bool) : Decidable (policy s rcv) :=
  inferInstanceAs (Decidable (¬s.radio_busy ∧ ¬s.irq_pending ∧ ¬rcv))

/-- `uint8_t` decrement of `pending_num` (`pending_num--`). -/
def pendingDec (n : Nat) : Nat := (n + 255) % 256

/-- The guard `pending_num < 0` following the decrement in
`msg_queue_remove_head`; `pending_num` is unsigned, so the comparison is over
non-negative values. -/
def pending_underflow_guard (n : Nat) : Bool := decide (n < 0)

/-- `msg_queue_add`: appends when `pending_num < NETDEV2_PKT_QUEUE_SIZE` and
returns 1, otherwise returns 0 and changes nothing.  Result:
(return value, new pending_num, new queue contents). -/
def msg_queue_add (pending : Nat) (queue : List Nat) (f : Nat) : Nat × Nat × List Nat :=
  if pending < NETDEV2_PKT_QUEUE_SIZE then
    (1, (pending + 1) % 256, queue ++ [f])
  else
    (0, pending, queue)

/-- `msg_queue_remove_head`: releases `msg_queue[0].content.ptr`, decrements
the `uint8_t` counter, shifts the remainder forward.  Result:
(new pending_num, new queue contents, released frame). -/
def msg_queue_remove_head (pending : Nat) (queue : List Nat) : Nat × List Nat × Option Nat :=
  (pendingDec pending, queue.tail, queue.head?)

/-- `msg_queue_send`: hands the queue head to the radio through the external
retry helper; sets `radio_busy` and `sending_beacon = false`.  The ghost
counter `inflight` records the submission. -/
def msg_queue_send (s : St) : St :=
  { s with radio_busy := true, sending_beacon := false, inflight := s.inflight + 1 }

/-- `reset_sleep_interval` writes 0 into `sleep_interval_shift`. -/
def reset_sleep_interval : Nat := 0

/-- The `uint32_t` value `DUTYCYCLE_SLEEP_INTERVAL_MIN << sleep_interval_shift`;
`mini` stands for the configuration constant `DUTYCYCLE_SLEEP_INTERVAL_MIN`. -/
def interval (mini shift : Nat) : Nat := (mini <<< shift) % 2 ^ 32

/-- `backoff_sleep_interval`: increments the `uint8_t` shift only while the
current interval is below `DUTYCYCLE_SLEEP_INTERVAL_MAX` (`maxi`). -/
def backoff_sleep_interval (mini maxi shift : Nat) : Nat :=
  if interval mini shift < maxi then (shift + 1) % 256 else shift

/-- `get_sleep_interval`: the effective interval, clamped to `maxi`. -/
def get_sleep_interval (mini maxi shift : Nat) : Nat :=
  if interval mini shift > maxi then maxi else interval mini shift

/-- `send_beacon_safely`: submits the beacon when the radio is free, otherwise
records the desire in `beacon_pending`. -/
def send_beacon_safely (rcv : Bool) (s : St) : St :=
  if s.radio_busy ∨ s.irq_pending ∨ rcv then
    { s with beacon_pending := true }
  else
    { s with radio_busy := true, sending_beacon := true, inflight := s.inflight + 1 }

/-- `dutycycle_cb`: the timer callback.  It mutates `dutycycle_state` directly
and posts one message; it runs only when the single-shot timer fires (see
`step`). -/
def dutycycle_cb (s : St) : St :=
  match s.dutycycle_state with
  | .INIT => s
  | .SLEEP =>
      if s.pending_num ≠ 0 then
        post .dutyEvent { s with dutycycle_state := .TX_DATA_BEFORE_BEACON }
      else
        post .dutyEvent { s with dutycycle_state := .TX_BEACON }
  | .LISTEN =>
      if s.pending_num > 0 then
        post .checkQueue { s with timer_armed := true, dutycycle_state := .TX_DATA }
      else
        post .dutyEvent { s with dutycycle_state := .SLEEP }
  | .TX_DATA => { s with dutycycle_state := .TX_DATA_BEFORE_BEACON }
  | .TX_BEACON => s
  | .TX_DATA_BEFORE_BEACON => s

/-- Common tail of the `TX_MEDIUM_BUSY` / `TX_NOACK` cases of `_event_cb` once
both external helpers have answered that no further attempt follows. -/
def failTerminal (s : St) : St :=
  let s := { s with radio_busy := false, inflight := s.inflight - 1 }
  if s.dutycycle_state = .INIT then s
  else if s.dutycycle_state = .TX_BEACON then
    post .dutyEvent { s with timer_armed := false, dutycycle_state := .SLEEP }
  else if s.pending_num > 0 then
    let s := if s.dutycycle_state ≠ .TX_DATA then { s with timer_armed := false } else s
    post .removeQueue s
  else if s.dutycycle_state = .TX_DATA then
    post .dutyEvent s
  else s

/-- `_event_cb` for the device events produced inside `isr()` (the `ISR` event
itself is `Act.isrRaise` below). -/
def event_cb (mini maxi : Nat) (ev : DevEv) (s : St) : St :=
  match ev with
  | .rxComplete _pkt =>
      let s := { s with timer_armed := false }
      if s.additional_wakeup then
        post .dutyEvent { s with dutycycle_state := .LISTEN, additional_wakeup := false }
      else if s.pending_num = 0 then
        post .dutyEvent { s with dutycycle_state := .SLEEP }
      else
        post .checkQueue { s with timer_armed := true, dutycycle_state := .TX_DATA }
  | .rxPending => { s with additional_wakeup := true }
  | .txCompletePending =>
      let s := { s with radio_busy := false, sleep_interval_shift := reset_sleep_interval,
                        inflight := s.inflight - 1 }
      if s.dutycycle_state ≠ .INIT then
        post .dutyEvent { s with timer_armed := false, dutycycle_state := .LISTEN }
      else s
  | .txComplete =>
      let s := { s with radio_busy := false, inflight := s.inflight - 1 }
      if s.dutycycle_state = .INIT then s
      else if s.dutycycle_state = .TX_BEACON then
        post .dutyEvent
          { s with
            timer_armed := false,
            sleep_interval_shift := backoff_sleep_interval mini maxi s.sleep_interval_shift,
            dutycycle_state := .SLEEP }
      else if s.pending_num > 0 then
        let s := { s with sleep_interval_shift := reset_sleep_interval }
        let s := if s.dutycycle_state ≠ .TX_DATA then { s with timer_armed := false } else s
        post .removeQueue s
      else if s.dutycycle_state = .TX_DATA then
        post .dutyEvent s
      else s
  | .txNoack retryWillRetry =>
      if retryWillRetry then s else failTerminal s
  | .txMediumBusy csmaWillRetry retryWillRetry =>
      if csmaWillRetry then s
      else if retryWillRetry then s
      else failTerminal s

/-- The `GNRC_NETDEV2_DUTYCYCLE_MSG_TYPE_EVENT` case of the thread loop. -/
def handleDutyEvent (rcv : Bool) (s : St) : St :=
  if s.dutycycling then
    match s.dutycycle_state with
    | .INIT =>
        { s with dutycycling := true, dutycycle_state := .SLEEP,
                 radio_power := .radioSleep, timer_armed := true }
    | .TX_BEACON => send_beacon_safely rcv { s with timer_armed := false }
    | .TX_DATA => { s with dutycycle_state := .SLEEP, radio_power := .radioSleep }
    | .TX_DATA_BEFORE_BEACON =>
        let s := { s with timer_armed := false }
        if ¬s.radio_busy ∧ ¬s.irq_pending ∧ ¬rcv then msg_queue_send s else s
    | .LISTEN => { s with radio_power := .radioIdle, timer_armed := true }
    | .SLEEP => { s with radio_power := .radioSleep, timer_armed := true }
  else s

/-- The `GNRC_NETDEV2_DUTYCYCLE_MSG_TYPE_REMOVE_QUEUE` case of the thread loop. -/
def handleRemoveQueue (rcv : Bool) (s : St) : St :=
  let r := msg_queue_remove_head s.pending_num s.queue
  let s := { s with pending_num := r.1, queue := r.2.1,
                    released := s.released ++ r.2.2.toList }
  if s.pending_num ≠ 0 then
    if ¬s.radio_busy ∧ ¬s.irq_pending ∧ ¬rcv then msg_queue_send s else s
  else if s.dutycycle_state = .TX_DATA_BEFORE_BEACON then
    send_beacon_safely rcv { s with dutycycle_state := .TX_BEACON }
  else if s.dutycycle_state = .TX_DATA then
    { s with dutycycle_state := .SLEEP, radio_power := .radioSleep }
  else s

/-- The `GNRC_NETDEV2_DUTYCYCLE_MSG_TYPE_CHECK_QUEUE` case of the thread loop. -/
def handleCheckQueue (rcv : Bool) (s : St) : St :=
  if s.dutycycle_state ≠ .LISTEN ∧ s.pending_num ≠ 0 ∧
      ¬s.radio_busy ∧ ¬s.irq_pending ∧ ¬rcv then
    let s := if s.dutycycle_state = .SLEEP then { s with dutycycle_state := .TX_DATA } else s
    msg_queue_send s
  else s

/-- The `NETDEV2_MSG_TYPE_EVENT` case: clear `irq_pending`, run the driver's
`isr()` hook (which delivers the oracle list of device events to `_event_cb`),
relaunch a pending beacon when the radio is free, then post `CHECK_QUEUE` to
self. -/
def handleNetdevEvent (mini maxi : Nat) (evs : List DevEv) (s : St) : St :=
  let s := { s with irq_pending := false }
  let s := evs.foldl (fun st ev => event_cb mini maxi ev st) s
  let s :=
    if s.beacon_pending ∧ ¬s.radio_busy then
      { s with beacon_pending := false, radio_busy := true, sending_beacon := true,
               inflight := s.inflight + 1 }
    else s
  post .checkQueue s

/-- The `GNRC_NETAPI_MSG_TYPE_SND` case: enqueue unconditionally (the return
value of `msg_queue_add` is discarded), then possibly submit. -/
def handleSnd (f : Nat) (rcv : Bool) (s : St) : St :=
  let r := msg_queue_add s.pending_num s.queue f
  let s := { s with pending_num := r.2.1, queue := r.2.2 }
  if s.dutycycle_state = .INIT then msg_queue_send s
  else if s.pending_num > 1 ∨ s.radio_busy then s
  else if ¬s.radio_busy ∧ ¬s.irq_pending ∧ ¬rcv ∧ s.dutycycle_state = .SLEEP then
    msg_queue_send { s with dutycycle_state := .TX_DATA }
  else s

/-- The `NETOPT_DUTYCYCLE` branch of the `GNRC_NETAPI_MSG_TYPE_SET` case:
cancel the timer, enable (state SLEEP, timer re-armed with a random phase) or
disable (state INIT); both branches put the radio to sleep. -/
def handleSetDuty (b : Bool) (s : St) : St :=
  let s := { s with dutycycling := b, timer_armed := false }
  if b then
    { s with dutycycle_state := .SLEEP, timer_armed := true, radio_power := .radioSleep }
  else
    { s with dutycycle_state := .INIT, radio_power := .radioSleep }

/-- One iteration of the thread loop on a dequeued message.  The second
component is the reply sent with `msg_reply`: the source replies only on the
SET (and GET) paths; the SND path sends no reply. -/
def dispatch (mini maxi : Nat) (rcv : Bool) (evs : List DevEv) (m : Msg) (s : St) :
    St × Option Nat :=
  match m with
  | .dutyEvent => (handleDutyEvent rcv s, none)
  | .checkQueue => (handleCheckQueue rcv s, none)
  | .removeQueue => (handleRemoveQueue rcv s, none)
  | .netdevEvent => (handleNetdevEvent mini maxi evs s, none)
  | .netapiSnd f => (handleSnd f rcv s, none)
  | .netapiSetDuty b => (handleSetDuty b s, some 0)

/-- Messages that can arrive from outside the MAC thread (upper layer). -/
def Msg.isExternal : Msg → Bool
  | .netapiSnd _ => true
  | .netapiSetDuty _ => true
  | _ => false

/-- Environment actions: arrival of an external message, the device raising
its interrupt line (`_event_cb` with `NETDEV2_EVENT_ISR`), the single-shot
timer firing, and the thread delivering the mailbox head (with the
`is_receiving` answer and the `isr()` event list as oracles). -/
inductive Act
  | arrive (m : Msg)
  | isrRaise
  | tick
  | deliver (rcv : Bool) (evs : List DevEv)

/-- Small-step semantics over the mailbox. -/
def step (mini maxi : Nat) (s : St) (a : Act) : St :=
  match a with
  | .arrive m => if m.isExternal then post m s else s
  | .isrRaise => post .netdevEvent { s with irq_pending := true }
  | .tick => if s.timer_armed then dutycycle_cb { s with timer_armed := false } else s
  | .deliver rcv evs =>
      match s.mailbox with
      | [] => s
      | m :: rest => (dispatch mini maxi rcv evs m { s with mailbox := rest }).1

/-- Run a list of actions from a state. -/
def run (mini maxi : Nat) (s : St) (acts : List Act) : St :=
  acts.foldl (step mini maxi) s

/-- The state after `SET(DUTYCYCLE=false)`: duty-cycling disabled, state INIT,
timer disarmed. -/
def InitIdle (s : St) : Prop :=
  s.dutycycling = false ∧ s.dutycycle_state = .INIT ∧ s.timer_armed = false

instance instDecidableInitIdle (s : St) : Decidable (InitIdle s) :=
  inferInstanceAs
    (Decidable (s.dutycycling = false ∧ s.dutycycle_state = .INIT ∧ s.timer_armed = false))

/-- Recognizer for the `RX_COMPLETE` device event. -/
def DevEv.isRxComplete : DevEv → Bool
  | .rxComplete _ => true
  | _ => false

/-- Trace: two upper-layer SND requests while duty-cycling is disabled
(state INIT). -/
def c1Trace : List Act :=
  [.arrive (.netapiSnd 1), .deliver false [], .arrive (.netapiSnd 2), .deliver false []]

/-- Trace: enable duty-cycling, wake with an empty queue (beacon launched),
then an SND request queues a frame while the beacon is in flight. -/
def c2Pre : List Act :=
  [.arrive (.netapiSetDuty true), .deliver false [], .tick, .deliver false [],
   .arrive (.netapiSnd 5), .deliver false [], .isrRaise]

/-- Trace: a `SET(DUTYCYCLE=false)` request, processed. -/
def c3Pre : List Act := [.arrive (.netapiSetDuty false), .deliver false []]

/-- Trace: enable duty-cycling and complete two empty-wake beacon cycles. -/
def c5Trace : List Act :=
  [.arrive (.netapiSetDuty true), .deliver false [], .tick, .deliver false [],
   .isrRaise, .deliver false [.txComplete], .deliver false [], .deliver false [],
   .tick, .deliver false [], .isrRaise, .deliver false [.txComplete]]

/-- Trace: enable duty-cycling and wake with an empty queue; the beacon is in
flight at the end. -/
def c6Pre : List Act :=
  [.arrive (.netapiSetDuty true), .deliver false [], .tick, .deliver false [], .isrRaise]

/-- A state whose packet queue is full. -/
def sFullQueue : St :=
  { init with dutycycling := true, dutycycle_state := .SLEEP,
              pending_num := 128, queue := List.replicate 128 0 }

/-- A sleeping state with one queued frame and an idle radio. -/
def sCheckReady : St :=
  { init with dutycycling := true, dutycycle_state := .SLEEP,
              pending_num := 1, queue := [3] }

/-- A sleeping state with one queued frame and the wake-up timer armed. -/
def sTickSleep : St :=
  { init with dutycycling := true, dutycycle_state := .SLEEP, timer_armed := true,
              pending_num := 1, queue := [3] }

/-- A state with the beacon in flight. -/
def sTxBeacon : St :=
  { init with dutycycling := true, dutycycle_state := .TX_BEACON,
              radio_busy := true, timer_armed := true }

/-- A pre-beacon draining state with two queued frames and an idle radio. -/
def sDrain : St :=
  { init with dutycycling := true, dutycycle_state := .TX_DATA_BEFORE_BEACON,
              pending_num := 2, queue := [4, 5] }

/-! ## Theorems -/

/-- C10: dropping the head of an empty queue wraps the `uint8_t` counter
`pending_num` from 0 to 255, and the guard `pending_num < 0` that follows the
decrement can never be taken, so the empty-queue drop is never detected. -/
theorem c10_empty_drop_wraps :
    pendingDec 0 = 255 ∧
    (∀ n : Nat, pending_underflow_guard n = false) ∧
    (∀ (s : St) (rcv : Bool), s.pending_num = 0 →
        (handleRemoveQueue rcv s).pending_num = 255) := by
  refine ⟨rfl, ?_, ?_⟩
  · intro n
    simp [pending_underflow_guard]
  · intro s rcv h
    simp only [handleRemoveQueue, msg_queue_remove_head, h, msg_queue_send]
    norm_num [pendingDec]
    split_ifs <;> rfl

/-- Witness for C10 at the initial (empty-queue) state. -/
theorem c10_empty_drop_wraps_witness :
    init.pending_num = 0 ∧ (handleRemoveQueue false init).pending_num = 255 :=
  ⟨rfl, c10_empty_drop_wraps.2.2 init false rfl⟩

/-- C8: a timer TICK delivered while DutyState is SLEEP moves the state to
TX_DATA_BEFORE_BEACON when the TX queue is non-empty and to TX_BEACON when it
is empty, and in both cases posts an EVENT message to the MAC thread. -/
theorem c8_tick_in_sleep (mini maxi : Nat) (s : St)
    (harm : s.timer_armed = true) (h : s.dutycycle_state = .SLEEP) :
    (s.pending_num ≠ 0 →
        (step mini maxi s .tick).dutycycle_state = .TX_DATA_BEFORE_BEACON) ∧
    (s.pending_num = 0 → (step mini maxi s .tick).dutycycle_state = .TX_BEACON) ∧
    (step mini maxi s .tick).mailbox = s.mailbox ++ [.dutyEvent] := by
  by_cases hp : s.pending_num = 0 <;>
    simp [step, harm, dutycycle_cb, h, hp, post]

/-- Witness for C8: a sleeping state with one queued frame. -/
theorem c8_tick_in_sleep_witness :
    sTickSleep.timer_armed = true ∧ sTickSleep.dutycycle_state = .SLEEP ∧
    sTickSleep.pending_num ≠ 0 ∧
    (step 100 200 sTickSleep .tick).dutycycle_state = .TX_DATA_BEFORE_BEACON :=
  ⟨rfl, rfl, by decide,
    (c8_tick_in_sleep 100 200 sTickSleep rfl rfl).1 (by decide)⟩

/-- C9: on TX_COMPLETE_PENDING in any DutyState other than INIT the handler
clears `radio_busy`, resets the sleep shift, disarms the timer, moves to
LISTEN and posts an EVENT message; in INIT it only clears `radio_busy` and
resets the shift, leaving the state, timer and mailbox unchanged. -/
theorem c9_tx_complete_pending_spec (mini maxi : Nat) (s : St) :
    (s.dutycycle_state ≠ .INIT →
        (event_cb mini maxi .txCompletePending s).radio_busy = false ∧
        (event_cb mini maxi .txCompletePending s).sleep_interval_shift = 0 ∧
        (event_cb mini maxi .txCompletePending s).timer_armed = false ∧
        (event_cb mini maxi .txCompletePending s).dutycycle_state = .LISTEN ∧
        (event_cb mini maxi .txCompletePending s).mailbox = s.mailbox ++ [.dutyEvent]) ∧
    (s.dutycycle_state = .INIT →
        (event_cb mini maxi .txCompletePending s).radio_busy = false ∧
        (event_cb mini maxi .txCompletePending s).sleep_interval_shift = 0 ∧
        (event_cb mini maxi .txCompletePending s).dutycycle_state = .INIT ∧
        (event_cb mini maxi .txCompletePending s).timer_armed = s.timer_armed ∧
        (event_cb mini maxi .txCompletePending s).mailbox = s.mailbox ∧
        (event_cb mini maxi .txCompletePending s).queue = s.queue) := by
  by_cases h : s.dutycycle_state = .INIT <;>
    simp [event_cb, h, post, reset_sleep_interval]

/-- Witness for C9 at a state with the beacon in flight (DutyState TX_BEACON). -/
theorem c9_tx_complete_pending_spec_witness :
    sTxBeacon.dutycycle_state ≠ DutyState.INIT ∧
    (event_cb 100 200 .txCompletePending sTxBeacon).dutycycle_state = .LISTEN ∧
    (event_cb 100 200 .txCompletePending sTxBeacon).radio_busy = false :=
  ⟨by decide,
    ((c9_tx_complete_pending_spec 100 200 sTxBeacon).1 (by decide)).2.2.2.1,
    ((c9_tx_complete_pending_spec 100 200 sTxBeacon).1 (by decide)).1⟩

/-- C4 (counterexample): with a full queue, a SEND is rejected by
`msg_queue_add` and the queue is unchanged, but no overflow error reaches the
caller: the SND dispatch produces no reply at all (the return value of
`msg_queue_add` is discarded and the source sends no `msg_reply` on this
path). -/
theorem c4_no_overflow_reply_counterexample :
    sFullQueue.pending_num = NETDEV2_PKT_QUEUE_SIZE ∧
    (dispatch 100 200 false [] (.netapiSnd 7) sFullQueue).2 = none ∧
    (dispatch 100 200 false [] (.netapiSnd 7) sFullQueue).1.queue = sFullQueue.queue ∧
    (dispatch 100 200 false [] (.netapiSnd 7) sFullQueue).1.pending_num =
      sFullQueue.pending_num := by decide

/-- C4 (amended): `msg_queue_add` appends and returns 1 when the queue has
room, and returns 0 leaving the queue untouched (releasing nothing) when it
is full; but the SND handler discards that return value and the SND dispatch
path produces no reply, so the overflow is never surfaced to the upper-layer
caller. -/
theorem c4_enqueue_amended :
    (∀ pending queue f, pending < NETDEV2_PKT_QUEUE_SIZE →
        msg_queue_add pending queue f = (1, (pending + 1) % 256, queue ++ [f])) ∧
    (∀ pending queue f, NETDEV2_PKT_QUEUE_SIZE ≤ pending →
        msg_queue_add pending queue f = (0, pending, queue)) ∧
    (∀ mini maxi rcv evs f (s : St),
        (dispatch mini maxi rcv evs (.netapiSnd f) s).2 = none) := by
  refine ⟨?_, ?_, ?_⟩
  · intro pending queue f h
    simp [msg_queue_add, h]
  · intro pending queue f h
    simp [msg_queue_add, Nat.not_lt.mpr h]
  · intro mini maxi rcv evs f s
    rfl

/-- Witness for C4 (amended) at a queue with room. -/
theorem c4_enqueue_amended_witness :
    5 < NETDEV2_PKT_QUEUE_SIZE ∧ msg_queue_add 5 [1] 9 = (1, 6, [1, 9]) :=
  ⟨by decide, c4_enqueue_amended.1 5 [1] 9 (by decide)⟩

/-- C5 (counterexample): with `MIN_INTERVAL = 100` and `MAX_INTERVAL = 250`
the exponent of the claim is K = 1 (`100 << 1 ≤ 250 < 100 << 2`), yet after
two empty-wake beacon cycles the reachable shift is 2 > K. -/
theorem c5_shift_exceeds_K_counterexample :
    100 <<< 1 ≤ 250 ∧ 250 < 100 <<< (1 + 1) ∧
    (run 100 250 init c5Trace).sleep_interval_shift = 2 ∧ ¬(2 ≤ 1) := by decide

/-- C5 (amended): the shift is bounded by K + 1 in general (the back-off
increments only while `MIN << shift` is still below MAX, one step at a time),
and by K itself exactly when `MAX = MIN << K`; `reset_sleep_interval` trivially
respects the bound.  The `2^32` hypothesis rules out `uint32_t` wrap-around of
the computed interval. -/
theorem c5_shift_bound_amended (mini maxi K shift : Nat)
    (h1 : mini <<< K ≤ maxi) (h2 : maxi < mini <<< (K + 1))
    (h3 : mini <<< (K + 1) < 2 ^ 32) (h4 : shift ≤ K + 1) :
    backoff_sleep_interval mini maxi shift ≤ K + 1 ∧
    (maxi = mini <<< K → shift ≤ K → backoff_sleep_interval mini maxi shift ≤ K) ∧
    reset_sleep_interval ≤ K := by
  refine ⟨?_, ?_, Nat.zero_le K⟩
  · by_cases hs : shift = K + 1
    · subst hs
      have hmod : interval mini (K + 1) = mini <<< (K + 1) :=
        Nat.mod_eq_of_lt h3
      unfold backoff_sleep_interval
      rw [hmod]
      split
      · omega
      · exact le_refl _
    · have hK : shift ≤ K := by omega
      unfold backoff_sleep_interval
      split
      · exact le_trans (Nat.mod_le _ _) (by omega)
      · omega
  · intro hex hsk
    by_cases hs : shift = K
    · have hlt : mini <<< K < 2 ^ 32 := by omega
      have hmod : interval mini K = mini <<< K := Nat.mod_eq_of_lt hlt
      unfold backoff_sleep_interval
      rw [hs, hmod, hex]
      simp
    · have hK : shift + 1 ≤ K := by omega
      unfold backoff_sleep_interval
      split
      · exact le_trans (Nat.mod_le _ _) hK
      · omega

/-- Witness for C5 (amended) at `MIN = 100`, `MAX = 200`, `K = 1`,
`shift = 2`. -/
theorem c5_shift_bound_amended_witness :
    backoff_sleep_interval 100 200 2 ≤ 2 :=
  (c5_shift_bound_amended 100 200 1 2 (by decide) (by decide) (by decide)
    (by decide)).1

/-- C6 (counterexample): in a reachable state with the beacon in flight, a
TX_MEDIUM_BUSY for which `csma_send_failed()` answers false but
`retry_send_failed()` answers true is NOT treated as terminal: `radio_busy`
stays set and no transition to SLEEP happens, contradicting the claim that a
false `csma_send_failed()` alone makes the failure terminal. -/
theorem c6_medium_busy_not_terminal_counterexample :
    (run 100 200 init c6Pre).radio_busy = true ∧
    (run 100 200 init c6Pre).dutycycle_state = .TX_BEACON ∧
    (run 100 200 init
        (c6Pre ++ [.deliver false [.txMediumBusy false true]])).radio_busy = true ∧
    (run 100 200 init
        (c6Pre ++ [.deliver false [.txMediumBusy false true]])).dutycycle_state =
      .TX_BEACON := by decide

/-- C6 (amended): a TX failure is terminal only when the consulted helpers
report no further attempt — for TX_NOACK a false `retry_send_failed()`, for
TX_MEDIUM_BUSY a false `csma_send_failed()` AND a false `retry_send_failed()`.
On a terminal failure the handler clears `radio_busy` and produces exactly
the DutyState, timer, queue, mailbox (beacon → SLEEP plus EVENT; data → the
REMOVE_QUEUE drop) and ghost-release effects of TX_COMPLETE, releasing the
frame silently; only the sleep shift differs, staying untouched.  When a
helper reports a further attempt the event changes nothing. -/
theorem c6_terminal_failure_matches_txcomplete (mini maxi : Nat) (s : St) :
    event_cb mini maxi (.txMediumBusy false false) s =
      event_cb mini maxi (.txNoack false) s ∧
    event_cb mini maxi (.txNoack true) s = s ∧
    event_cb mini maxi (.txMediumBusy true false) s = s ∧
    event_cb mini maxi (.txMediumBusy true true) s = s ∧
    event_cb mini maxi (.txMediumBusy false true) s = s ∧
    (event_cb mini maxi (.txNoack false) s).dutycycle_state =
      (event_cb mini maxi .txComplete s).dutycycle_state ∧
    (event_cb mini maxi (.txNoack false) s).radio_busy = false ∧
    (event_cb mini maxi .txComplete s).radio_busy = false ∧
    (event_cb mini maxi (.txNoack false) s).timer_armed =
      (event_cb mini maxi .txComplete s).timer_armed ∧
    (event_cb mini maxi (.txNoack false) s).mailbox =
      (event_cb mini maxi .txComplete s).mailbox ∧
    (event_cb mini maxi (.txNoack false) s).queue =
      (event_cb mini maxi .txComplete s).queue ∧
    (event_cb mini maxi (.txNoack false) s).pending_num =
      (event_cb mini maxi .txComplete s).pending_num ∧
    (event_cb mini maxi (.txNoack false) s).released =
      (event_cb mini maxi .txComplete s).released ∧
    (event_cb mini maxi (.txNoack false) s).inflight =
      (event_cb mini maxi .txComplete s).inflight ∧
    (event_cb mini maxi (.txNoack false) s).beacon_pending =
      (event_cb mini maxi .txComplete s).beacon_pending ∧
    (event_cb mini maxi (.txNoack false) s).radio_power =
      (event_cb mini maxi .txComplete s).radio_power ∧
    (event_cb mini maxi (.txNoack false) s).sleep_interval_shift =
      s.sleep_interval_shift := by
  refine ⟨rfl, rfl, rfl, rfl, rfl, ?_⟩
  simp only [event_cb, failTerminal]
  split_ifs <;> simp_all [post, reset_sleep_interval]

/-- C7: processing REMOVE_QUEUE drops the queue head (releasing its frame,
remainder shifted forward in FIFO order); if the queue is still non-empty and
the submission policy holds, the new head is handed to the radio; if the
queue became empty in TX_DATA_BEFORE_BEACON the state moves to TX_BEACON and
the beacon is launched (deferred into `beacon_pending` exactly when the
submission policy fails); if it became empty in TX_DATA the state moves to
SLEEP and the radio is powered down. -/
theorem c7_remove_queue_spec (rcv : Bool) (s : St)
    (hsync : s.pending_num = s.queue.length) (hne : s.queue ≠ [])
    (hcap : s.queue.length ≤ 256) :
    (handleRemoveQueue rcv s).queue = s.queue.tail ∧
    (handleRemoveQueue rcv s).pending_num = s.queue.length - 1 ∧
    (handleRemoveQueue rcv s).released = s.released ++ s.queue.head?.toList ∧
    (s.queue.tail ≠ [] → policy s rcv →
        (handleRemoveQueue rcv s).radio_busy = true ∧
        (handleRemoveQueue rcv s).sending_beacon = false ∧
        (handleRemoveQueue rcv s).inflight = s.inflight + 1) ∧
    (s.queue.tail = [] → s.dutycycle_state = .TX_DATA_BEFORE_BEACON →
        (handleRemoveQueue rcv s).dutycycle_state = .TX_BEACON ∧
        (policy s rcv →
            (handleRemoveQueue rcv s).radio_busy = true ∧
            (handleRemoveQueue rcv s).sending_beacon = true ∧
            (handleRemoveQueue rcv s).inflight = s.inflight + 1) ∧
        (¬ policy s rcv → (handleRemoveQueue rcv s).beacon_pending = true)) ∧
    (s.queue.tail = [] → s.dutycycle_state = .TX_DATA →
        (handleRemoveQueue rcv s).dutycycle_state = .SLEEP ∧
        (handleRemoveQueue rcv s).radio_power = .radioSleep) := by
  rcases hq : s.queue with _ | ⟨a, t⟩
  · exact absurd hq hne
  have hlen : s.pending_num = t.length + 1 := by
    rw [hsync, hq]; simp
  have hcap' : t.length + 1 ≤ 256 := by
    rw [hq] at hcap; simpa using hcap
  have hmod : pendingDec s.pending_num = t.length := by
    unfold pendingDec; omega
  by_cases ht : t = []
  · subst ht
    simp only [handleRemoveQueue, msg_queue_remove_head, hq, hmod, policy,
      msg_queue_send, send_beacon_safely, post]
    split_ifs <;> simp_all <;> (first | tauto | simp_all | (intros; simp_all))
  · have htl : t.length ≠ 0 := by
      intro h0
      exact ht (List.length_eq_zero.mp h0)
    simp only [handleRemoveQueue, msg_queue_remove_head, hq, hmod, policy,
      msg_queue_send, send_beacon_safely, post]
    split_ifs <;> simp_all <;> (first | tauto | simp_all | (intros; simp_all))

/-- Witness for C7: draining two queued frames with an idle radio. -/
theorem c7_remove_queue_spec_witness :
    (handleRemoveQueue false sDrain).queue = [5] ∧
    (handleRemoveQueue false sDrain).radio_busy = true ∧
    (handleRemoveQueue false sDrain).sending_beacon = false := by
  have h := c7_remove_queue_spec false sDrain rfl (by decide) (by decide)
  exact ⟨h.1, (h.2.2.2.1 (by decide) (by decide)).1,
    (h.2.2.2.1 (by decide) (by decide)).2.1⟩

/-- C2 (counterexample): in a reachable state the beacon is in flight
(DutyState TX_BEACON) while the TX queue holds one frame; the TX_COMPLETE for
the beacon still increments the sleep shift, contradicting the requirement
that the increment happens only when the queue is empty. -/
theorem c2_backoff_nonempty_queue_counterexample :
    (run 100 200 init c2Pre).dutycycle_state = .TX_BEACON ∧
    (run 100 200 init c2Pre).pending_num = 1 ∧
    (run 100 200 init c2Pre).sleep_interval_shift = 0 ∧
    (run 100 200 init (c2Pre ++ [.deliver false [.txComplete]])).sleep_interval_shift
      = 1 ∧
    (run 100 200 init (c2Pre ++ [.deliver false [.txComplete]])).queue = [5] := by
  decide

/-- C2 (amended): the sleep shift grows only through `backoff_sleep_interval`,
invoked exactly on a TX_COMPLETE received while DutyState is TX_BEACON —
regardless of whether the TX queue is empty; no thread-side handler or the
timer callback ever increases it; the increment happens only while
`MIN << shift` is still below MAX, and the effective interval
`get_sleep_interval` never exceeds MAX. -/
theorem c2_backoff_only_txcomplete_beacon :
    (∀ mini maxi ev (s : St),
        s.sleep_interval_shift < (event_cb mini maxi ev s).sleep_interval_shift →
        ev = .txComplete ∧ s.dutycycle_state = .TX_BEACON ∧
        (event_cb mini maxi ev s).sleep_interval_shift =
          backoff_sleep_interval mini maxi s.sleep_interval_shift) ∧
    (∀ rcv (s : St),
        (handleDutyEvent rcv s).sleep_interval_shift = s.sleep_interval_shift ∧
        (handleCheckQueue rcv s).sleep_interval_shift = s.sleep_interval_shift ∧
        (handleRemoveQueue rcv s).sleep_interval_shift = s.sleep_interval_shift ∧
        (dutycycle_cb s).sleep_interval_shift = s.sleep_interval_shift) ∧
    (∀ f rcv b (s : St),
        (handleSnd f rcv s).sleep_interval_shift = s.sleep_interval_shift ∧
        (handleSetDuty b s).sleep_interval_shift = s.sleep_interval_shift) ∧
    (∀ mini maxi shift, backoff_sleep_interval mini maxi shift = shift ∨
        (backoff_sleep_interval mini maxi shift = (shift + 1) % 256 ∧
          interval mini shift < maxi)) ∧
    (∀ mini maxi shift, get_sleep_interval mini maxi shift ≤ maxi) := by
  refine ⟨?_, ?_, ?_, ?_, ?_⟩
  · intro mini maxi ev s hlt
    cases ev <;>
      simp only [event_cb, failTerminal, post, reset_sleep_interval] at hlt ⊢ <;>
      (try split_ifs at hlt ⊢) <;> (try simp_all) <;> omega
  · intro rcv s
    refine ⟨?_, ?_, ?_, ?_⟩
    · cases h : s.dutycycle_state <;>
        simp [handleDutyEvent, h, send_beacon_safely, msg_queue_send, post] <;>
        split_ifs <;> rfl
    · simp only [handleCheckQueue, msg_queue_send]
      split_ifs <;> rfl
    · simp only [handleRemoveQueue, msg_queue_remove_head, msg_queue_send,
        send_beacon_safely, post]
      split_ifs <;> rfl
    · cases h : s.dutycycle_state <;>
        simp [dutycycle_cb, h, post] <;> split_ifs <;> rfl
  · intro f rcv b s
    constructor
    · simp only [handleSnd, msg_queue_add, msg_queue_send]
      split_ifs <;> rfl
    · simp only [handleSetDuty]
      split_ifs <;> rfl
  · intro mini maxi shift
    unfold backoff_sleep_interval
    split_ifs with h
    · exact Or.inr ⟨rfl, h⟩
    · exact Or.inl rfl
  · intro mini maxi shift
    unfold get_sleep_interval
    split_ifs <;> omega

/-- Witness for C2 (amended): a TX_COMPLETE in TX_BEACON at shift 0 with
`MIN = 100 < MAX = 200` increments the shift to 1. -/
theorem c2_backoff_only_txcomplete_beacon_witness :
    sTxBeacon.sleep_interval_shift <
      (event_cb 100 200 .txComplete sTxBeacon).sleep_interval_shift ∧
    sTxBeacon.dutycycle_state = .TX_BEACON ∧
    (event_cb 100 200 .txComplete sTxBeacon).sleep_interval_shift =
      backoff_sleep_interval 100 200 sTxBeacon.sleep_interval_shift :=
  ⟨by decide,
    (c2_backoff_only_txcomplete_beacon.1 100 200 .txComplete sTxBeacon
      (by decide)).2.1,
    (c2_backoff_only_txcomplete_beacon.1 100 200 .txComplete sTxBeacon
      (by decide)).2.2⟩

/-- Helper: a single device event never increases the ghost in-flight count. -/
theorem event_cb_inflight_le (mini maxi : Nat) (ev : DevEv) (s : St) :
    (event_cb mini maxi ev s).inflight ≤ s.inflight := by
  cases ev <;> simp only [event_cb, failTerminal, post] <;>
    (try split_ifs) <;> (try simp) <;> omega

/-- Helper: a single device event does not touch `irq_pending`. -/
theorem event_cb_irq_eq (mini maxi : Nat) (ev : DevEv) (s : St) :
    (event_cb mini maxi ev s).irq_pending = s.irq_pending := by
  cases ev <;> simp only [event_cb, failTerminal, post] <;>
    (try split_ifs) <;> rfl

/-- Helper: folding device events never increases the in-flight count. -/
theorem foldl_event_cb_inflight_le (mini maxi : Nat) (evs : List DevEv) (s : St) :
    (evs.foldl (fun st ev => event_cb mini maxi ev st) s).inflight ≤ s.inflight := by
  induction evs generalizing s with
  | nil => simp
  | cons e es ih =>
      simp only [List.foldl_cons]
      exact le_trans (ih (event_cb mini maxi e s)) (event_cb_inflight_le mini maxi e s)

/-- Helper: folding device events does not touch `irq_pending`. -/
theorem foldl_event_cb_irq_eq (mini maxi : Nat) (evs : List DevEv) (s : St) :
    (evs.foldl (fun st ev => event_cb mini maxi ev st) s).irq_pending = s.irq_pending := by
  induction evs generalizing s with
  | nil => rfl
  | cons e es ih =>
      simp only [List.foldl_cons]
      rw [ih (event_cb mini maxi e s), event_cb_irq_eq mini maxi e s]

/-- Helper: any device event other than RX_COMPLETE preserves the
disabled-and-idle configuration. -/
theorem event_cb_initIdle (mini maxi : Nat) (ev : DevEv) (s : St)
    (h : InitIdle s) (hev : ev.isRxComplete = false) :
    InitIdle (event_cb mini maxi ev s) := by
  obtain ⟨h1, h2, h3⟩ := h
  cases ev <;>
    simp_all [event_cb, failTerminal, post, InitIdle, DevEv.isRxComplete] <;>
    (try split_ifs) <;> simp_all

/-- Helper: folding RX_COMPLETE-free device events preserves the
disabled-and-idle configuration. -/
theorem foldl_event_cb_initIdle (mini maxi : Nat) (evs : List DevEv) (s : St)
    (h : InitIdle s) (hevs : ∀ ev ∈ evs, ev.isRxComplete = false) :
    InitIdle (evs.foldl (fun st ev => event_cb mini maxi ev st) s) := by
  induction evs generalizing s with
  | nil => simpa using h
  | cons e es ih =>
      simp only [List.foldl_cons]
      refine ih (event_cb mini maxi e s) ?_ ?_
      · exact event_cb_initIdle mini maxi e s h (hevs e (by simp))
      · intro ev hmem
        exact hevs ev (by simp [hmem])

/-- C3 (counterexample): after `SET(DUTYCYCLE=false)` is processed the state
is INIT with the timer disarmed, but a single RX_COMPLETE event (delivered
through a RADIO_ISR) moves DutyState to SLEEP, away from INIT. -/
theorem c3_rx_complete_leaves_init_counterexample :
    (run 100 200 init c3Pre).dutycycling = false ∧
    (run 100 200 init c3Pre).dutycycle_state = .INIT ∧
    (run 100 200 init c3Pre).timer_armed = false ∧
    (run 100 200 init
        (c3Pre ++ [.isrRaise, .deliver false [.rxComplete none]])).dutycycle_state =
      .SLEEP := by decide

/-- C3 (amended): `SET(DUTYCYCLE=false)` establishes the disabled-and-idle
configuration (DutyState INIT, timer disarmed), and every listed arrival
except RX_COMPLETE — TICK, the TX-terminal events, TX_COMPLETE_PENDING,
RX_PENDING, CHECK_QUEUE, REMOVE_QUEUE, and internal EVENT messages —
preserves it; an RX_COMPLETE, however, moves the state away from INIT
(see the counterexample). -/
theorem c3_init_preserved_amended (mini maxi : Nat) (rcv : Bool)
    (evs : List DevEv) (s : St) :
    InitIdle (handleSetDuty false s) ∧
    (InitIdle s →
      InitIdle (step mini maxi s .tick) ∧
      InitIdle (handleDutyEvent rcv s) ∧
      InitIdle (handleCheckQueue rcv s) ∧
      InitIdle (handleRemoveQueue rcv s) ∧
      ((∀ ev ∈ evs, ev.isRxComplete = false) →
        InitIdle (handleNetdevEvent mini maxi evs s))) := by
  constructor
  · simp [handleSetDuty, InitIdle]
  · rintro ⟨h1, h2, h3⟩
    refine ⟨?_, ?_, ?_, ?_, ?_⟩
    · simp only [step, h3, if_false]
      exact ⟨h1, h2, h3⟩
    · simp only [handleDutyEvent, h1]
      exact ⟨h1, h2, h3⟩
    · simp only [handleCheckQueue, msg_queue_send]
      split_ifs <;> simp_all [InitIdle]
    · simp only [handleRemoveQueue, msg_queue_remove_head, msg_queue_send,
        send_beacon_safely, post]
      split_ifs <;> simp_all [InitIdle]
    · intro hevs
      have hf : InitIdle (evs.foldl (fun st ev => event_cb mini maxi ev st)
          { s with irq_pending := false }) :=
        foldl_event_cb_initIdle mini maxi evs { s with irq_pending := false }
          ⟨h1, h2, h3⟩ hevs
      obtain ⟨g1, g2, g3⟩ := hf
      simp only [handleNetdevEvent, post]
      split_ifs <;> exact ⟨g1, g2, g3⟩

/-- Witness for C3 (amended) at the initial state, which is disabled and
idle. -/
theorem c3_init_preserved_amended_witness :
    InitIdle init ∧ InitIdle (handleCheckQueue false init) :=
  ⟨by decide,
    ((c3_init_preserved_amended 100 200 false [] init).2 (by decide)).2.2.1⟩

/-- C1 (counterexample): while duty-cycling is disabled (state INIT), two
upper-layer SND requests reach a state with two submissions outstanding and
no terminal TX event in between, so two frames are in flight at once. -/
theorem c1_double_submit_counterexample :
    (run 100 200 init c1Trace).inflight = 2 ∧
    (run 100 200 init c1Trace).radio_busy = true := by decide

set_option maxHeartbeats 1600000 in
/-- C1 (amended): the submission policy
`!RadioBusy ∧ !IRQPending ∧ !isReceiving` holds on the CHECK_QUEUE path, the
REMOVE_QUEUE path, the EVENT (TICK-driven) paths including the beacon launch,
and the duty-cycled NETAPI_SEND immediate path — but not on the two
exceptional paths: the NETAPI_SEND path taken in INIT submits
unconditionally (so at-most-one-in-flight can be violated there), and the
pending-beacon relaunch after RADIO_ISR checks only `beacon_pending` and
`!RadioBusy`, with `IRQPending` already cleared but `isReceiving`
unchecked. -/
theorem c1_submission_policy_amended (mini maxi : Nat) (rcv : Bool) (f : Nat)
    (evs : List DevEv) (s : St) :
    (s.inflight < (handleCheckQueue rcv s).inflight → policy s rcv) ∧
    (s.inflight < (handleRemoveQueue rcv s).inflight → policy s rcv) ∧
    (s.inflight < (handleDutyEvent rcv s).inflight → policy s rcv) ∧
    (s.dutycycle_state ≠ .INIT →
      s.inflight < (handleSnd f rcv s).inflight → policy s rcv) ∧
    (s.dutycycle_state = .INIT → (handleSnd f rcv s).inflight = s.inflight + 1) ∧
    (s.inflight < (handleNetdevEvent mini maxi evs s).inflight →
      (evs.foldl (fun st ev => event_cb mini maxi ev st)
          { s with irq_pending := false }).beacon_pending = true ∧
      (evs.foldl (fun st ev => event_cb mini maxi ev st)
          { s with irq_pending := false }).radio_busy = false ∧
      (evs.foldl (fun st ev => event_cb mini maxi ev st)
          { s with irq_pending := false }).irq_pending = false) := by
  refine ⟨?_, ?_, ?_, ?_, ?_, ?_⟩
  · intro h
    simp only [policy]
    simp only [handleCheckQueue, msg_queue_send] at h
    split_ifs at h <;> (try simp at h) <;> first | omega | tauto
  · intro h
    simp only [policy]
    simp only [handleRemoveQueue, msg_queue_remove_head, msg_queue_send,
      send_beacon_safely, post] at h
    split_ifs at h <;> (try simp at h) <;> first | omega | tauto
  · intro h
    simp only [policy]
    cases hd : s.dutycycle_state <;>
      simp only [handleDutyEvent, hd, msg_queue_send, send_beacon_safely, post] at h <;>
      (try split_ifs at h) <;> (try simp at h) <;> first | omega | tauto
  · intro hne h
    simp only [policy]
    simp only [handleSnd, msg_queue_add, msg_queue_send] at h
    split_ifs at h <;> (try simp at h) <;> first | omega | tauto
  · intro hINIT
    simp [handleSnd, msg_queue_add, msg_queue_send, hINIT]
  · intro h
    simp only [handleNetdevEvent, post] at h
    split_ifs at h with hg
    · refine ⟨hg.1, by simpa using hg.2, ?_⟩
      rw [foldl_event_cb_irq_eq]
    · have hle := foldl_event_cb_inflight_le mini maxi evs { s with irq_pending := false }
      simp only at hle
      exact absurd h (by omega)

/-- Witness for C1 (amended): a CHECK_QUEUE submission from a sleeping state
with an idle radio satisfies the policy. -/
theorem c1_submission_policy_amended_witness :
    sCheckReady.inflight < (handleCheckQueue false sCheckReady).inflight ∧
    policy sCheckReady false :=
  ⟨by decide,
    (c1_submission_policy_amended 100 200 false 0 [] sCheckReady).1 (by decide)⟩

end DutyLeaf
